import Mathlib

/-!
Shallow embedding of `reboundx/extras.py` (the ctypes binding layer of
REBOUNDx) and proofs about its Python-visible behaviour.

Modelling conventions:
* A ctypes pointer object (`POINTER(Extras)` value and friends) is a Python
  object that may wrap the NULL address; it is *never* the Python object
  `None`.  We model it as `CPtr` with an `isNull` flag, and Python's
  `is None` test on it as the constant `false`.
* The `c_int` warnings word filled in by
  `rebx_create_extras_from_binary_with_messages` is modelled by its 32-bit
  two's-complement bit pattern, a `Nat`; Python's `&` on the `int` value
  agrees with `Nat.land` (`&&&`) on that pattern for the masks used here
  (1, 2, 4, 8, 16, 32, 64).  Python truthiness of `w.value & v` is
  `w &&& v != 0`.
* Python dicts (`INTEGRATORS`, `REBX_FORCE_TYPE`, `REBX_OPERATOR_TYPE`)
  are association lists in insertion order; indexing raises `KeyError`
  when the key is absent.
* Python exceptions are the `PyExc` type; a method body that can raise is
  an `Except PyExc` computation.
* `basestring` (line 94 of the source) and `Effect` (line 147) are free
  names: neither is defined in `extras.py`, imported into it, or a Python 3
  builtin, so evaluating them raises `NameError`.
* Marshalling a Python float through `c_double` is the identity on the
  underlying IEEE-754 double, modelled by the identity on `Float`.
-/

/-- Python exceptions raised by the code under consideration.
`valueError` carries the argument object passed to `ValueError(...)`:
in `from_file` that argument is the *tuple* `REBX_BINARY_WARNINGS[0]`,
hence the `String × Nat` payload; `valueErrorMsg` is `ValueError` applied
to a plain message string. -/
inductive PyExc where
  | valueError (arg : String × Nat)
  | valueErrorMsg (msg : String)
  | nameError (missing : String)
  | keyError (key : String)
  deriving DecidableEq, Repr

/-- A ctypes pointer object.  It wraps an address that may be NULL, but the
object itself is never the Python constant `None`. -/
structure CPtr where
  isNull : Bool
  deriving DecidableEq, Repr

/-- Python's `p is None` applied to a ctypes pointer object: always false,
because the object returned by a foreign call with a `POINTER(...)` restype
is a pointer instance, not `None` — even when the wrapped address is NULL. -/
def ptrIsNone (_ : CPtr) : Bool := false

/-- The Python-visible fields of the `rebound.Simulation` object that
`Extras.from_file` touches, plus an opaque remainder standing for all the
fields it does not touch. -/
structure SimState where
  save_messages : Int
  rest : Int
  deriving DecidableEq, Repr

/-- Source line 13: the `REBX_BINARY_WARNINGS` list of
(message, bit value) pairs, in order. -/
def REBX_BINARY_WARNINGS : List (String × Nat) :=
  [("REBOUNDx Error: Cannot read binary file. Check filename and file contents.", 1),
   ("REBOUNDx Error: Binary file was corrupt. Could not read.", 2),
   ("REBOUNDx Warning: Binary file was saved with a different version of REBOUNDx. Binary format might have changed.", 4),
   ("REBOUNDx Warning: At least one parameter in the binary file was not loaded. Check simulation.", 8),
   ("REBOUNDx Warning: At least one particle\x27s parameters in the binary file were not loaded. Check simulation.", 16),
   ("REBOUNDx Warning: At least one effect and its parameters were not loaded from the binary file. Check simulation.", 32),
   ("REBOUNDx Warning: At least one field in the binary field was not recognized, and not loaded. Probably binary was created with more recent REBOUNDx version than you are using.", 64)]

/-- The `for message, value in REBX_BINARY_WARNINGS` loop of `from_file`
(source lines 62-64): it calls `warnings.warn(message, RuntimeWarning)`
exactly for the entries with `w.value & value` truthy and `value != 1`,
in list order.  The emitted messages, in order. -/
def fromFileWarnings (w : Nat) : List String :=
  (REBX_BINARY_WARNINGS.filter (fun q => (w &&& q.2 != 0) && (q.2 != 1))).map Prod.fst

/-- `Extras.from_file` (source lines 41-67), from the point where the native
loader has returned: `extrasp` is the pointer returned by `rebx_init` and
`w` is the warnings word written by
`rebx_create_extras_from_binary_with_messages`.  Returns the final state of
`sim` together with either the raised exception or the pair of
(RuntimeWarning messages emitted, pointer whose `contents` is returned).
The source, in order: raise `ValueError(REBX_BINARY_WARNINGS[0])` when
`(extrasp is None) or (w.value & 1)`; emit the warnings; dereference
`extrasp.contents`; set `sim.save_messages = 1`; return. -/
def from_file (sim : SimState) (extrasp : CPtr) (w : Nat) :
    SimState × Except PyExc (List String × CPtr) :=
  if ptrIsNone extrasp || (w &&& 1 != 0) then
    (sim, Except.error (PyExc.valueError (REBX_BINARY_WARNINGS.get ⟨0, by decide⟩)))
  else
    (⟨1, sim.rest⟩, Except.ok (fromFileWarnings w, extrasp))

/-- Source line 7: the `INTEGRATORS` dict, in insertion order. -/
def INTEGRATORS : List (String × Int) :=
  [("implicit_midpoint", 0), ("rk4", 1), ("euler", 2), ("rk2", 3), ("none", -1)]

/-- Source line 10: the `REBX_FORCE_TYPE` dict. -/
def REBX_FORCE_TYPE : List (String × Int) :=
  [("none", 0), ("pos", 1), ("vel", 2)]

/-- Source line 11: the `REBX_OPERATOR_TYPE` dict. -/
def REBX_OPERATOR_TYPE : List (String × Int) :=
  [("none", 0), ("updater", 1), ("recorder", 2)]

/-- The `Extras.integrator` property getter (source lines 74-89):
`i = self._integrator`, then the first `name` in `INTEGRATORS` whose value
equals `i` is returned, and `i` itself when no entry matches.  The Python
return value is a `str` or an `int`, modelled by the sum. -/
def integrator_get (i : Int) : String ⊕ Int :=
  match INTEGRATORS.find? (fun q => i == q.2) with
  | some q => Sum.inl q.1
  | none => Sum.inr i

/-- A Python value assigned to the `integrator` property: an `int` or a
`str` (other types fall through both `isinstance` tests and the setter is a
silent no-op; they are not needed for the claims). -/
inductive PyValue where
  | int (i : Int)
  | str (s : String)
  deriving DecidableEq, Repr

/-- Storing a Python int into a ctypes `c_int` field: two's-complement
wrap-around to the signed 32-bit range. -/
def toCInt (i : Int) : Int := (i + 2 ^ 31) % 2 ^ 32 - 2 ^ 31

/-- The `Extras.integrator` property setter (source lines 90-99) in a
Python 3 interpreter, returning the new value of the `_integrator` field.
For an `int`, `self._integrator = c_int(value)` stores the wrapped value.
For a `str`, `isinstance(value, int)` is false and evaluating the guard
`isinstance(value, basestring)` raises `NameError`, because `basestring`
is a Python 2 builtin defined nowhere in this module: the lowercasing,
the dict lookup and the `raise ValueError("Warning. Integrator not found.")`
on lines 95-99 are unreachable. -/
def integrator_set (value : PyValue) : Except PyExc Int :=
  match value with
  | PyValue.int i => Except.ok (toCInt i)
  | PyValue.str _ => Except.error (PyExc.nameError "basestring")

/-- The `_integrator` field after running the setter on `cur`: unchanged
when the setter raises. -/
def integrator_set_post (cur : Int) (value : PyValue) : Int :=
  match integrator_set value with
  | Except.ok i => i
  | Except.error _ => cur

/-- Python's `str.lower`, at the character-list level (`String.toLower`
does not reduce in the kernel; on the ASCII dict keys involved the two and
Python's `lower` all agree). -/
def pyLower (s : String) : String := ⟨s.data.map Char.toLower⟩

/-- Python-level state of a `Force` structure: its `_force_type` c_int
field (the only field the `force_type` property touches). -/
structure ForceState where
  _force_type : Int
  deriving DecidableEq, Repr

/-- Python-level state of an `Operator` structure: its `_operator_type`
c_int field. -/
structure OperatorState where
  _operator_type : Int
  deriving DecidableEq, Repr

/-- `Force.force_type` getter (source lines 254-256): returns the raw
`_force_type` integer. -/
def force_type_get (f : ForceState) : Int := f._force_type

/-- `Force.force_type` setter (source lines 258-260):
`self._force_type = REBX_FORCE_TYPE[value.lower()]`; a missing key raises
`KeyError`.  Python's `str.lower` is modelled by `pyLower`. -/
def force_type_set (f : ForceState) (value : String) : Except PyExc ForceState :=
  match REBX_FORCE_TYPE.find? (fun q => q.1 == pyLower value) with
  | some q => Except.ok ⟨q.2⟩
  | none =>
    have _ := f
    Except.error (PyExc.keyError (pyLower value))

/-- `Operator.operator_type` getter (source lines 224-226). -/
def operator_type_get (o : OperatorState) : Int := o._operator_type

/-- `Operator.operator_type` setter (source lines 228-230):
`self._operator_type = REBX_OPERATOR_TYPE[value.lower()]`. -/
def operator_type_set (o : OperatorState) (value : String) : Except PyExc OperatorState :=
  match REBX_OPERATOR_TYPE.find? (fun q => q.1 == pyLower value) with
  | some q => Except.ok ⟨q.2⟩
  | none =>
    have _ := o
    Except.error (PyExc.keyError (pyLower value))

/-- Marshalling of a Python float by the `c_double(...)` constructor: the
wrapped IEEE-754 double equals the Python float's value, so the conversion
is the identity on `Float`. -/
def c_double (x : Float) : Float := x

/-- An opaque reference to a `rebound.Simulation` structure, as passed by
`byref(sim)`. -/
structure SimRef where
  addr : Nat
  deriving DecidableEq, Repr

/-- An opaque reference to an effect-parameters structure, as passed by
`byref(params)`. -/
structure ParamsRef where
  addr : Nat
  deriving DecidableEq, Repr

/-- The exported native functions of `clibreboundx` that the convenience
methods of source lines 168-205 forward to.  Each field is the double-valued
C function itself, opaque to the binding; the `restype = c_double`
assignments in the source only declare these return types. -/
structure CLib where
  rebx_rad_calc_beta : Float → Float → Float → Float → Float → Float → Float → Float
  rebx_rad_calc_particle_radius : Float → Float → Float → Float → Float → Float → Float → Float
  rebx_gr_hamiltonian : SimRef → ParamsRef → Float
  rebx_gr_potential_hamiltonian : SimRef → ParamsRef → Float
  rebx_gr_full_hamiltonian : SimRef → ParamsRef → Float
  rebx_tides_precession_hamiltonian : SimRef → ParamsRef → Float
  rebx_central_force_hamiltonian : SimRef → Float
  rebx_gravitational_harmonics_hamiltonian : SimRef → Float

/-- `Extras.rad_calc_beta` (source lines 168-170): marshals each argument
through `c_double` and returns the native result unchanged. -/
def rad_calc_beta (lib : CLib) (G c source_mass source_luminosity radius density Q_pr : Float) : Float :=
  lib.rebx_rad_calc_beta (c_double G) (c_double c) (c_double source_mass)
    (c_double source_luminosity) (c_double radius) (c_double density) (c_double Q_pr)

/-- `Extras.rad_calc_particle_radius` (source lines 172-174). -/
def rad_calc_particle_radius (lib : CLib) (G c source_mass source_luminosity beta density Q_pr : Float) : Float :=
  lib.rebx_rad_calc_particle_radius (c_double G) (c_double c) (c_double source_mass)
    (c_double source_luminosity) (c_double beta) (c_double density) (c_double Q_pr)

/-- `Extras.gr_hamiltonian` (source lines 183-185): forwards
`byref(sim), byref(params)`. -/
def gr_hamiltonian (lib : CLib) (sim : SimRef) (params : ParamsRef) : Float :=
  lib.rebx_gr_hamiltonian sim params

/-- `Extras.gr_potential_hamiltonian` (source lines 187-189). -/
def gr_potential_hamiltonian (lib : CLib) (sim : SimRef) (params : ParamsRef) : Float :=
  lib.rebx_gr_potential_hamiltonian sim params

/-- `Extras.gr_full_hamiltonian` (source lines 191-193). -/
def gr_full_hamiltonian (lib : CLib) (sim : SimRef) (params : ParamsRef) : Float :=
  lib.rebx_gr_full_hamiltonian sim params

/-- `Extras.tides_precession_hamiltonian` (source lines 195-197). -/
def tides_precession_hamiltonian (lib : CLib) (sim : SimRef) (params : ParamsRef) : Float :=
  lib.rebx_tides_precession_hamiltonian sim params

/-- `Extras.central_force_hamiltonian` (source lines 199-201). -/
def central_force_hamiltonian (lib : CLib) (sim : SimRef) : Float :=
  lib.rebx_central_force_hamiltonian sim

/-- `Extras.gravitational_harmonics_hamiltonian` (source lines 203-205). -/
def gravitational_harmonics_hamiltonian (lib : CLib) (sim : SimRef) : Float :=
  lib.rebx_gravitational_harmonics_hamiltonian sim

/-- Whether the name `Effect` resolves in the module scope of `extras.py`:
the classes defined there are `Extras`, `Param`, `Node`, `Operator` and
`Force`, the only `from ... import` brings in `Params`, and `Effect` is not
a builtin — so the name does not resolve. -/
def moduleDefinesEffect : Bool := false

/-- `Extras.get_effect` (source lines 146-153) in a Python 3 interpreter.
Its first statement, `clibreboundx.rebx_get_effect.restype = POINTER(Effect)`,
evaluates the free name `Effect` and raises `NameError` on every call,
before the native lookup.  The remaining lines — warn
`"Parameter <name> not found"` and return `None` when the returned pointer
is falsy (NULL), return `ptr.contents` otherwise — are unreachable; they
are embedded under the (false) guard that `Effect` resolves.  The result on
success is the (warning messages, optional dereferenced pointer) pair. -/
def get_effect (name : String) (ptr : CPtr) : Except PyExc (List String × Option CPtr) :=
  if moduleDefinesEffect then
    if ptr.isNull then
      Except.ok (["Parameter " ++ name ++ " not found"], none)
    else
      Except.ok ([], some ptr)
  else
    Except.error (PyExc.nameError "Effect")

/-- Whether a `from_file` run ended in a raised exception. -/
def raisedException (r : SimState × Except PyExc (List String × CPtr)) : Bool :=
  match r.2 with
  | Except.error _ => true
  | Except.ok _ => false

/-- In a list of pairs whose first components are pairwise distinct, the
first component determines the second. -/
theorem fst_nodup_inj {α β : Type} (l : List (α × β)) (m : α) (v v' : β)
    (hnd : (l.map Prod.fst).Nodup) (h1 : (m, v) ∈ l) (h2 : (m, v') ∈ l) : v = v' := by
  induction l with
  | nil => cases h1
  | cons a t ih =>
    rw [List.map_cons, List.nodup_cons] at hnd
    rcases List.mem_cons.mp h1 with rfl | h1t
    · rcases List.mem_cons.mp h2 with h | h2t
      · exact (congrArg Prod.snd h).symm
      · exact absurd (List.mem_map_of_mem Prod.fst h2t) hnd.1
    · rcases List.mem_cons.mp h2 with h | h2t
      · rw [← h] at hnd
        exact absurd (List.mem_map_of_mem Prod.fst h1t) hnd.1
      · exact ih hnd.2 h1t h2t

/-- The seven warning messages are pairwise distinct. -/
theorem rebx_binary_warnings_fst_nodup :
    (REBX_BINARY_WARNINGS.map Prod.fst).Nodup := by decide

/-- A message of the table with bit value `v ≠ 1` is emitted by the warning
loop exactly when bit `v` is set in the warnings word. -/
theorem mem_fromFileWarnings (w : Nat) (m : String) (v : Nat)
    (hmem : (m, v) ∈ REBX_BINARY_WARNINGS) (hv : v ≠ 1) :
    m ∈ fromFileWarnings w ↔ w &&& v ≠ 0 := by
  unfold fromFileWarnings
  constructor
  · intro hm
    rcases List.mem_map.mp hm with ⟨q, hq, hq1⟩
    rcases List.mem_filter.mp hq with ⟨hqmem, hpred⟩
    have hq2 : q.2 = v := by
      have hqm : (m, q.2) ∈ REBX_BINARY_WARNINGS := by
        rw [← hq1]; exact hqmem
      exact fst_nodup_inj REBX_BINARY_WARNINGS m q.2 v
        rebx_binary_warnings_fst_nodup hqm hmem
    simp only [Bool.and_eq_true, bne_iff_ne, ne_eq] at hpred
    rw [hq2] at hpred
    exact hpred.1
  · intro hw
    refine List.mem_map.mpr ⟨(m, v), List.mem_filter.mpr ⟨hmem, ?_⟩, rfl⟩
    simp [hw, hv]

/-- The warning loop emits each message at most once. -/
theorem fromFileWarnings_nodup (w : Nat) : (fromFileWarnings w).Nodup := by
  exact rebx_binary_warnings_fst_nodup.sublist
    ((List.filter_sublist REBX_BINARY_WARNINGS).map Prod.fst)

/-- C1 (counterexample to the claim as stated): bit 2 — whose
`REBX_BINARY_WARNINGS` message is labelled an Error — is set in the
warnings word 2, yet `from_file` does not raise `ValueError`: it returns
normally, emitting the corrupt-file message as a RuntimeWarning. -/
theorem c1_counterexample :
    2 &&& 2 ≠ 0 ∧
    (from_file ⟨0, 0⟩ ⟨false⟩ 2).2 =
      Except.ok (["REBOUNDx Error: Binary file was corrupt. Could not read."], ⟨false⟩) :=
  ⟨by decide, rfl⟩

/-- C1 (amended): `from_file` raises
`ValueError(REBX_BINARY_WARNINGS[0])` exactly when bit 1 of the warnings
word is set; when bit 1 is clear it returns normally — bit 2, despite its
Error-labelled message, only produces a RuntimeWarning. -/
theorem c1_from_file_raises_iff_bit1 (sim : SimState) (extrasp : CPtr) (w : Nat) :
    (w &&& 1 ≠ 0 → (from_file sim extrasp w).2 =
      Except.error (PyExc.valueError (REBX_BINARY_WARNINGS.get ⟨0, by decide⟩))) ∧
    (w &&& 1 = 0 → (from_file sim extrasp w).2 = Except.ok (fromFileWarnings w, extrasp)) := by
  constructor
  · intro h
    have hb : (ptrIsNone extrasp || (w &&& 1 != 0)) = true := by
      rw [Nat.and_one_is_mod] at h
      simp [ptrIsNone]
      omega
    rw [from_file, if_pos hb]
  · intro h
    have hb : (ptrIsNone extrasp || (w &&& 1 != 0)) ≠ true := by
      rw [Nat.and_one_is_mod] at h
      simp [ptrIsNone]
      omega
    rw [from_file, if_neg hb]

/-- C1 witness: the amended theorem applied at the words 1 (raises) and
4 (returns). -/
theorem c1_witness :
    (from_file ⟨0, 0⟩ ⟨false⟩ 1).2 =
      Except.error (PyExc.valueError (REBX_BINARY_WARNINGS.get ⟨0, by decide⟩)) ∧
    (from_file ⟨0, 0⟩ ⟨false⟩ 4).2 = Except.ok (fromFileWarnings 4, ⟨false⟩) :=
  ⟨(c1_from_file_raises_iff_bit1 ⟨0, 0⟩ ⟨false⟩ 1).1 (by decide),
   (c1_from_file_raises_iff_bit1 ⟨0, 0⟩ ⟨false⟩ 4).2 (by decide)⟩

/-- C2: with bit 1 clear, `from_file` returns the Extras pointer handed
back by the native loader, and for every table entry with bit value
`v ≠ 1` its message is emitted exactly when bit `v` is set in the word —
at most once overall, since the emitted list has no duplicates. -/
theorem c2_from_file_warning_per_bit (sim : SimState) (extrasp : CPtr) (w : Nat)
    (m : String) (v : Nat) (h1 : w &&& 1 = 0)
    (hmem : (m, v) ∈ REBX_BINARY_WARNINGS) (hv : v ≠ 1) :
    (from_file sim extrasp w).2 = Except.ok (fromFileWarnings w, extrasp) ∧
    (m ∈ fromFileWarnings w ↔ w &&& v ≠ 0) ∧
    (fromFileWarnings w).Nodup := by
  refine ⟨?_, mem_fromFileWarnings w m v hmem hv, fromFileWarnings_nodup w⟩
  have hb : (ptrIsNone extrasp || (w &&& 1 != 0)) ≠ true := by
    rw [Nat.and_one_is_mod] at h1
    simp [ptrIsNone]
    omega
  rw [from_file, if_neg hb]

/-- C2 witness: word 2 — the corrupt-file message is emitted (bit 2 set),
exactly once, and `from_file` returns the loader's pointer. -/
theorem c2_witness :
    (from_file ⟨0, 0⟩ ⟨true⟩ 2).2 = Except.ok (fromFileWarnings 2, ⟨true⟩) ∧
    ("REBOUNDx Error: Binary file was corrupt. Could not read." ∈ fromFileWarnings 2 ↔
      2 &&& 2 ≠ 0) ∧
    (fromFileWarnings 2).Nodup :=
  c2_from_file_warning_per_bit ⟨0, 0⟩ ⟨true⟩ 2
    "REBOUNDx Error: Binary file was corrupt. Could not read." 2
    (by decide) (by decide) (by decide)

/-- C3: the `integrator` getter decodes `_integrator`: every value in the
`INTEGRATORS` table is mapped to its name, and any other integer is
returned raw. -/
theorem c3_integrator_get_decode (name : String) (i j : Int)
    (hmem : (name, i) ∈ INTEGRATORS) (hj : ∀ q ∈ INTEGRATORS, j ≠ q.2) :
    integrator_get i = Sum.inl name ∧ integrator_get j = Sum.inr j := by
  constructor
  · fin_cases hmem <;> rfl
  · have h0 := hj ("implicit_midpoint", 0) (by decide)
    have h1 := hj ("rk4", 1) (by decide)
    have h2 := hj ("euler", 2) (by decide)
    have h3 := hj ("rk2", 3) (by decide)
    have h4 := hj ("none", -1) (by decide)
    have e : INTEGRATORS.find? (fun q => j == q.2) = none := by
      rw [INTEGRATORS, List.find?_cons_of_neg, List.find?_cons_of_neg,
        List.find?_cons_of_neg, List.find?_cons_of_neg, List.find?_cons_of_neg,
        List.find?_nil] <;> simp_all
    rw [integrator_get, e]

/-- C3 witness: `_integrator = 1` decodes to `"rk4"`; the value 7, absent
from the table, is returned as the integer 7. -/
theorem c3_witness :
    integrator_get 1 = Sum.inl "rk4" ∧ integrator_get 7 = Sum.inr 7 :=
  c3_integrator_get_decode "rk4" 1 7 (by decide) (by decide)

/-- C4: contrary to the claim, assigning the `INTEGRATORS` key `"rk4"`
(already lowercase) to the `integrator` property does not succeed: the
setter raises `NameError` on the undefined Python 2 name `basestring`,
and the `_integrator` field keeps its previous value 0, so no subsequent
read can return the name. -/
theorem c4_integrator_set_str_nameerror :
    integrator_set (PyValue.str "rk4") = Except.error (PyExc.nameError "basestring") ∧
    integrator_set_post 0 (PyValue.str "rk4") = 0 :=
  ⟨rfl, rfl⟩

/-- C5: contrary to the claim, assigning a string that is not a key of
`INTEGRATORS` raises `NameError` (on `basestring`), not `ValueError`; the
`_integrator` field is indeed left unchanged. -/
theorem c5_integrator_set_unknown_nameerror :
    integrator_set (PyValue.str "foo") = Except.error (PyExc.nameError "basestring") ∧
    integrator_set (PyValue.str "foo") ≠
      Except.error (PyExc.valueErrorMsg "Warning. Integrator not found.") ∧
    integrator_set_post 5 (PyValue.str "foo") = 5 := by
  refine ⟨rfl, ?_, rfl⟩
  intro h
  simp [integrator_set] at h

/-- C6: the `force_type` and `operator_type` setters encode names
case-insensitively — a string whose lowercasing is a key of
`REBX_FORCE_TYPE` / `REBX_OPERATOR_TYPE` stores the table's integer in the
`_force_type` / `_operator_type` field, and the property getter then
returns that integer. -/
theorem c6_type_setters_encode (f : ForceState) (o : OperatorState)
    (s t fname tname : String) (fcode tcode : Int)
    (hf : (fname, fcode) ∈ REBX_FORCE_TYPE) (hs : pyLower s = fname)
    (ho : (tname, tcode) ∈ REBX_OPERATOR_TYPE) (ht : pyLower t = tname) :
    force_type_set f s = Except.ok ⟨fcode⟩ ∧ force_type_get ⟨fcode⟩ = fcode ∧
    operator_type_set o t = Except.ok ⟨tcode⟩ ∧ operator_type_get ⟨tcode⟩ = tcode := by
  refine ⟨?_, rfl, ?_, rfl⟩
  · rw [force_type_set, hs]
    fin_cases hf <;> rfl
  · rw [operator_type_set, ht]
    fin_cases ho <;> rfl

/-- C6 witness: `force_type = "Pos"` stores 1; `operator_type = "UPDATER"`
stores 1; both getters read those integers back. -/
theorem c6_witness :
    force_type_set ⟨0⟩ "Pos" = Except.ok ⟨1⟩ ∧ force_type_get ⟨1⟩ = 1 ∧
    operator_type_set ⟨0⟩ "UPDATER" = Except.ok ⟨1⟩ ∧ operator_type_get ⟨1⟩ = 1 :=
  c6_type_setters_encode ⟨0⟩ ⟨0⟩ "Pos" "UPDATER" "pos" "updater" 1 1
    (by decide) (by decide) (by decide) (by decide)

/-- C7: the convenience and Hamiltonian wrappers are pure forwarders: each
returns exactly the double produced by the like-named native function on
the marshalled arguments, with no transformation of the result. -/
theorem c7_convenience_forwarding (lib : CLib)
    (G c source_mass source_luminosity radius density Q_pr beta : Float)
    (sim : SimRef) (params : ParamsRef) :
    rad_calc_beta lib G c source_mass source_luminosity radius density Q_pr =
      lib.rebx_rad_calc_beta G c source_mass source_luminosity radius density Q_pr ∧
    rad_calc_particle_radius lib G c source_mass source_luminosity beta density Q_pr =
      lib.rebx_rad_calc_particle_radius G c source_mass source_luminosity beta density Q_pr ∧
    gr_hamiltonian lib sim params = lib.rebx_gr_hamiltonian sim params ∧
    gr_potential_hamiltonian lib sim params = lib.rebx_gr_potential_hamiltonian sim params ∧
    gr_full_hamiltonian lib sim params = lib.rebx_gr_full_hamiltonian sim params ∧
    tides_precession_hamiltonian lib sim params =
      lib.rebx_tides_precession_hamiltonian sim params ∧
    central_force_hamiltonian lib sim = lib.rebx_central_force_hamiltonian sim ∧
    gravitational_harmonics_hamiltonian lib sim =
      lib.rebx_gravitational_harmonics_hamiltonian sim :=
  ⟨rfl, rfl, rfl, rfl, rfl, rfl, rfl, rfl⟩

/-- C8: the `extrasp is None` guard of `from_file` never holds, so raising
is decided solely by bit 1 of the warnings word; in particular a NULL
pointer with bit 1 clear does not raise, and the NULL pointer itself is
what `from_file` goes on to dereference. -/
theorem c8_null_pointer_not_none (sim : SimState) (extrasp : CPtr) (w : Nat) :
    ptrIsNone extrasp = false ∧
    (raisedException (from_file sim extrasp w) = true ↔ w &&& 1 ≠ 0) ∧
    (extrasp.isNull = true → w &&& 1 = 0 →
      (from_file sim extrasp w).2 = Except.ok (fromFileWarnings w, extrasp)) := by
  refine ⟨rfl, ?_, ?_⟩
  · by_cases h : w &&& 1 = 0
    · have hb : (ptrIsNone extrasp || (w &&& 1 != 0)) ≠ true := by
        rw [Nat.and_one_is_mod] at h
        simp [ptrIsNone]
        omega
      rw [from_file, if_neg hb]
      simp [raisedException, h]
    · have hb : (ptrIsNone extrasp || (w &&& 1 != 0)) = true := by
        rw [Nat.and_one_is_mod] at h
        simp [ptrIsNone]
        omega
      rw [from_file, if_pos hb]
      rw [Nat.and_one_is_mod] at h
      simp [raisedException]
      omega
  · intro _ h1
    have hb : (ptrIsNone extrasp || (w &&& 1 != 0)) ≠ true := by
      simp [ptrIsNone, h1]
    rw [from_file, if_neg hb]

/-- C8 witness: for the NULL pointer and the word 0, the guard is false,
no exception is raised, and the NULL pointer is the one dereferenced. -/
theorem c8_witness :
    ptrIsNone ⟨true⟩ = false ∧
    (raisedException (from_file ⟨0, 0⟩ ⟨true⟩ 0) = true ↔ 0 &&& 1 ≠ 0) ∧
    (from_file ⟨0, 0⟩ ⟨true⟩ 0).2 = Except.ok (fromFileWarnings 0, ⟨true⟩) :=
  ⟨(c8_null_pointer_not_none ⟨0, 0⟩ ⟨true⟩ 0).1,
   (c8_null_pointer_not_none ⟨0, 0⟩ ⟨true⟩ 0).2.1,
   (c8_null_pointer_not_none ⟨0, 0⟩ ⟨true⟩ 0).2.2 rfl rfl⟩

/-- C9: contrary to the claim, `get_effect` neither warns-and-returns
`None` on a NULL pointer nor dereferences a non-NULL one: its first
statement evaluates the undefined name `Effect` and raises `NameError`
on every call. -/
theorem c9_get_effect_nameerror :
    get_effect "gr" ⟨true⟩ = Except.error (PyExc.nameError "Effect") ∧
    get_effect "gr" ⟨false⟩ = Except.error (PyExc.nameError "Effect") :=
  ⟨rfl, rfl⟩

/-- C10: `from_file` writes `sim.save_messages` only on the successful
path: when it raises, the whole `sim` state is returned unchanged, and on
success `save_messages` becomes 1 with the rest of `sim` untouched. -/
theorem c10_save_messages_frame (sim : SimState) (extrasp : CPtr) (w : Nat) :
    (raisedException (from_file sim extrasp w) = true → (from_file sim extrasp w).1 = sim) ∧
    (raisedException (from_file sim extrasp w) = false →
      (from_file sim extrasp w).1 = ⟨1, sim.rest⟩) := by
  by_cases h : w &&& 1 = 0
  · have hb : (ptrIsNone extrasp || (w &&& 1 != 0)) ≠ true := by
      rw [Nat.and_one_is_mod] at h
      simp [ptrIsNone]
      omega
    rw [from_file, if_neg hb]
    exact ⟨fun hc => absurd hc (by simp [raisedException]), fun _ => rfl⟩
  · have hb : (ptrIsNone extrasp || (w &&& 1 != 0)) = true := by
      rw [Nat.and_one_is_mod] at h
      simp [ptrIsNone]
      omega
    rw [from_file, if_pos hb]
    exact ⟨fun _ => rfl, fun hc => absurd hc (by simp [raisedException])⟩

/-- C10 witness: at the word 1 `from_file` raises and `sim = ⟨5, 7⟩` is
unchanged; at the word 0 it succeeds and `save_messages` becomes 1 while
the rest of the state is kept. -/
theorem c10_witness :
    (from_file ⟨5, 7⟩ ⟨false⟩ 1).1 = ⟨5, 7⟩ ∧
    (from_file ⟨5, 7⟩ ⟨false⟩ 0).1 = ⟨1, 7⟩ :=
  ⟨(c10_save_messages_frame ⟨5, 7⟩ ⟨false⟩ 1).1 rfl,
   (c10_save_messages_frame ⟨5, 7⟩ ⟨false⟩ 0).2 rfl⟩
